import Mathlib

/-!
Shallow embedding of the heuristic document-structuring and field-extraction
pipeline of `usd.py` (paper analysis tool), together with proofs about the
claims of its specification.

Python strings are modelled as Lean `String` (a list of unicode code points,
matching Python's code-point semantics for `len`, slicing and `in`).  The
Python string operations used by the source are given faithful executable
counterparts (`pyLower`, `pyStrip`, `pyIn`, `pySplitChar`, `pyJoin`,
`pyTake`, `pyStartsWith`, `pyIsTitle`, `pyIsUpper`).  These cover the ASCII
behaviour of the corresponding CPython operations, which is the behaviour
exercised by the keyword tables of the source (all keywords are ASCII; the
Chinese placeholder strings contain no cased or whitespace characters).
-/

/-- Python `str.lower()` restricted to ASCII case mapping (all keywords in the
source are ASCII, and `Char.toLower` maps exactly the ASCII uppercase
letters). -/
def pyLower (s : String) : String := String.mk (s.data.map Char.toLower)

/-- Python `needle in haystack` (substring containment) on code-point lists. -/
def listIsInfix (pat : List Char) : List Char → Bool
  | [] => List.isPrefixOf pat []
  | c :: rest => List.isPrefixOf pat (c :: rest) || listIsInfix pat rest

/-- Python `pat in s` for strings. -/
def pyIn (pat s : String) : Bool := listIsInfix pat.data s.data

/-- Characters stripped by Python `str.strip()` with no argument
(whitespace). -/
def pyWS (c : Char) : Bool := c.isWhitespace

/-- Drop leading whitespace, as the first half of `str.strip()`. -/
def trimLeft (l : List Char) : List Char := l.dropWhile pyWS

/-- Drop trailing whitespace, as the second half of `str.strip()`. -/
def trimRight (l : List Char) : List Char := (l.reverse.dropWhile pyWS).reverse

/-- Python `str.strip()` on code-point lists. -/
def pyStripList (l : List Char) : List Char := trimRight (trimLeft l)

/-- Python `str.strip()`. -/
def pyStrip (s : String) : String := String.mk (pyStripList s.data)

/-- Helper for `pySplitChar`: accumulates the current segment (reversed). -/
def pySplitCharAux (sep : Char) : List Char → List Char → List String
  | [], cur => [String.mk cur.reverse]
  | c :: rest, cur =>
    if c = sep then String.mk cur.reverse :: pySplitCharAux sep rest []
    else pySplitCharAux sep rest (c :: cur)

/-- Python `s.split(sep)` for a one-character separator: `n` separators give
`n + 1` segments, empty segments are kept. -/
def pySplitChar (sep : Char) (s : String) : List String := pySplitCharAux sep s.data []

/-- Helper for `pySplitAny`, the multi-delimiter variant used for
`re.split(r'[.!?]', text)`. -/
def pySplitAnyAux (seps : List Char) : List Char → List Char → List String
  | [], cur => [String.mk cur.reverse]
  | c :: rest, cur =>
    if seps.contains c then String.mk cur.reverse :: pySplitAnyAux seps rest []
    else pySplitAnyAux seps rest (c :: cur)

/-- Python `re.split(r'[.!?]', text)`: split on any of the characters, keeping
empty segments (the source's sentence segmentation). -/
def pySplitAny (seps : List Char) (s : String) : List String := pySplitAnyAux seps s.data []

/-- The sentence delimiters of the source (`re.split(r'[.!?]', ...)`). -/
def sentenceSeps : List Char := ['.', '!', '?']

/-- Python `sep.join(xs)`. -/
def pyJoin (sep : String) : List String → String
  | [] => ""
  | [x] => x
  | x :: y :: xs => x ++ sep ++ pyJoin sep (y :: xs)

/-- Python `s[:n]` for `n ≥ 0`. -/
def pyTake (s : String) (n : Nat) : String := String.mk (s.data.take n)

/-- Python `s.startswith(pre)`. -/
def pyStartsWith (s pre : String) : Bool := List.isPrefixOf pre.data s.data

/-- Python cased character (ASCII restriction): a character that is uppercase
or lowercase. -/
def pyCased (c : Char) : Bool := c.isUpper || c.isLower

/-- State machine of CPython `str.istitle()`: uppercase may not follow a cased
character, lowercase must follow a cased character, and at least one cased
character must occur. -/
def pyIsTitleAux : List Char → Bool → Bool → Bool
  | [], _, cased => cased
  | c :: rest, prevCased, cased =>
    if c.isUpper then
      if prevCased then false else pyIsTitleAux rest true true
    else if c.isLower then
      if prevCased then pyIsTitleAux rest true true else false
    else
      pyIsTitleAux rest false cased

/-- Python `s.istitle()` (ASCII restriction). -/
def pyIsTitle (s : String) : Bool := pyIsTitleAux s.data false false

/-- Python `s.isupper()` (ASCII restriction): at least one cased character and
no lowercase character. -/
def pyIsUpper (s : String) : Bool :=
  s.data.any pyCased && s.data.all (fun c => !c.isLower)

/-- Python truthiness `if s:` / `s or d` for strings: `""` is falsy. -/
def pyOrStr (s d : String) : String := if s = "" then d else s

/-- `re.sub(r'\.(pdf|docx|doc|txt)', '', ·)` of `extract_title`: remove every
occurrence of a dot followed by one of the extensions, trying the regex
alternatives in their written order at each position, scanning left to
right over non-overlapping matches. -/
def stripExts : List Char → List Char
  | [] => []
  | c :: rest =>
    if c = '.' then
      if List.isPrefixOf "pdf".data rest then stripExts (rest.drop 3)
      else if List.isPrefixOf "docx".data rest then stripExts (rest.drop 4)
      else if List.isPrefixOf "doc".data rest then stripExts (rest.drop 3)
      else if List.isPrefixOf "txt".data rest then stripExts (rest.drop 3)
      else c :: stripExts rest
    else c :: stripExts rest
termination_by l => l.length
decreasing_by
  all_goals simp_arith [List.length_drop]

/-- Python `s.split(sep)[0]` (the part before the first separator; the whole
string when the separator does not occur). -/
def pySplitHead (sep : Char) (s : String) : String := (pySplitChar sep s).headD s

/-- The `StructuredContent` record produced by the readers of `usd.py`
(`read_pdf` / `read_word` / `read_txt`): the five text regions consumed by
the extractors.  The readers always populate all five keys, so the record is
total. -/
structure StructuredContent where
  home_page : String
  abstract : String
  experiments : String
  conclusion : String
  full_text : String
deriving Repr, DecidableEq

/-- Positive keyword set of `is_yolo_related_paper` (`yolo_keywords`),
verbatim from the source, including the mixed-case entries. -/
def yolo_keywords : List String :=
  ["yolov11", "yolov10", "yolov9", "yolov8", "yolo v11", "yolo v10", "yolo",
   "object detection", "target detection", "bounding box", "mAP", "FPS"]

/-- Negative keyword set of `is_yolo_related_paper` (`non_yolo_keywords`),
verbatim from the source. -/
def non_yolo_keywords : List String :=
  ["mamba", "diffusion", "time series", "nlp", "language", "transformer", "bert", "gpt", "llm"]

/-- The classifier `is_yolo_related_paper` of `usd.py`: negative keywords are
checked first against the lowercased full text; positive keywords are then
checked against the lowercased full text and the lowercased document name;
the default is `false`. -/
def is_yolo_related_paper (structured_content : StructuredContent) (paper_name : String) : Bool :=
  let full_text := pyLower structured_content.full_text
  let paper_name_lower := pyLower paper_name
  if non_yolo_keywords.any (fun kw => pyIn kw full_text) then false
  else if yolo_keywords.any (fun kw => pyIn kw full_text)
          || yolo_keywords.any (fun kw => pyIn kw paper_name_lower) then true
  else false

/-- `FIELD_EXTRACTION_KEYWORDS["innovation"]` of the source. -/
def innovation_keywords : List String :=
  ["innovation", "novel", "propose", "proposed", "breakthrough", "improvement"]

/-- `FIELD_EXTRACTION_KEYWORDS["metric"]` of the source. -/
def metric_keywords : List String :=
  ["metric", "accuracy", "perplexity", "bleu", "map", "f1", "precision", "recall"]

/-- `FIELD_EXTRACTION_KEYWORDS["conclusion"]` of the source. -/
def conclusion_keywords : List String :=
  ["conclusion", "find", "finding", "conclude", "show that", "demonstrate"]

/-- The first-3-lines candidate list of `extract_title`: the first three raw
lines of `home_page`, each stripped, empty lines dropped (the source's
`home_lines` list comprehension). -/
def home_lines (structured_content : StructuredContent) : List String :=
  (((pySplitChar '\n' structured_content.home_page).take 3).map pyStrip).filter (fun l => l ≠ "")

/-- The first-2-lines candidate list of `extract_title` over the abstract
region (the source's `abstract_lines` list comprehension). -/
def abstract_lines (structured_content : StructuredContent) : List String :=
  (((pySplitChar '\n' structured_content.abstract).take 2).map pyStrip).filter (fun l => l ≠ "")

/-- The qualification test of step 1 of `extract_title`: length over 5, none
of the author/affiliation marker characters, and title-case or
all-uppercase. -/
def title_line_ok (line : String) : Bool :=
  decide (line.length > 5) &&
  !(["∗", "@", "1", "2", "3", "4", "5"].any (fun ch => pyIn ch line)) &&
  (pyIsTitle line || pyIsUpper line)

/-- The qualification test of step 2 of `extract_title`: length over 5 and not
starting with `abstract` after lowercasing. -/
def abstract_line_ok (line : String) : Bool :=
  decide (line.length > 5) && !(pyStartsWith (pyLower line) "abstract")

/-- The filename-derived title of step 3 of `extract_title`: the document name
up to the first fullwidth parenthesis, with the known extensions removed and
the result stripped. -/
def filename_title (paper_name : String) : String :=
  pyStrip (String.mk (stripExts (pySplitHead '（' paper_name).data))

/-- `extract_title` of `usd.py`: first qualifying line of the first three
lines of the home page, else first qualifying line of the first two lines of
the abstract, else a marker-prefixed title derived from the file name.  The
two region scans are guarded by Python truthiness of the region string, and
the found line is returned through one more `strip()` exactly as in the
source. -/
def extract_title (structured_content : StructuredContent) (paper_name : String) : String :=
  match (if structured_content.home_page ≠ "" then
      (home_lines structured_content).find? title_line_ok else none) with
  | some line => pyStrip line
  | none =>
    match (if structured_content.abstract ≠ "" then
        (abstract_lines structured_content).find? abstract_line_ok else none) with
    | some line => pyStrip line
    | none => "从文件名提取：" ++ filename_title paper_name

/-- The `innovation_sentences` list of `extract_innovation`: sentences of
`home_page + "\n" + abstract` that contain an innovation keyword and are
longer than 10 characters, each stripped. -/
def innovation_sentences (structured_content : StructuredContent) : List String :=
  let full_text := structured_content.home_page ++ "\n" ++ structured_content.abstract
  ((pySplitAny sentenceSeps full_text).filter (fun sentence =>
    innovation_keywords.any (fun kw => pyIn kw (pyLower sentence)) &&
      decide (sentence.length > 10))).map pyStrip

/-- The `core_innovation` local of `extract_innovation` before truncation:
first sentence containing `propose`/`novel`, else the first candidate, else
`""` when no candidates exist. -/
def core_innovation_raw (structured_content : StructuredContent) : String :=
  let ss := innovation_sentences structured_content
  if ss.isEmpty then ""
  else
    let propose_sentences := ss.filter (fun s =>
      pyIn "propose" (pyLower s) || pyIn "novel" (pyLower s))
    if propose_sentences.isEmpty then ss.headD "" else propose_sentences.headD ""

/-- The `innovation_value` local of `extract_innovation` before truncation:
first candidate containing a value keyword, else a placeholder, else `""`
when no candidates exist. -/
def innovation_value_raw (structured_content : StructuredContent) : String :=
  let ss := innovation_sentences structured_content
  if ss.isEmpty then ""
  else
    let value_sentences := ss.filter (fun s =>
      ["solve", "improve", "enable", "benefit"].any (fun kw => pyIn kw (pyLower s)))
    if value_sentences.isEmpty then "未明确具体价值（需参考全文）" else value_sentences.headD ""

/-- `extract_innovation` of `usd.py`: the raw candidates above, truncated to
150/100 characters with a trailing ellipsis, and replaced by placeholders
when empty. -/
def extract_innovation (structured_content : StructuredContent) : String × String :=
  (pyOrStr
    (if (core_innovation_raw structured_content).length > 150 then
      pyTake (core_innovation_raw structured_content) 150 ++ "..."
     else core_innovation_raw structured_content)
    "未明确（需参考全文创新部分）",
   pyOrStr
    (if (innovation_value_raw structured_content).length > 100 then
      pyTake (innovation_value_raw structured_content) 100 ++ "..."
     else innovation_value_raw structured_content)
    "未明确（需参考全文价值部分）")

/-- `extract_math` of `usd.py`: formula lines (containing a math symbol, over
3 characters after stripping), numbered derivation sentences, and the first
advantage sentence, with placeholders. -/
def extract_math (structured_content : StructuredContent) : String × String × String :=
  let full_text := structured_content.full_text
  let formula_sentences :=
    ((pySplitChar '\n' full_text).map pyStrip).filter (fun line_stripped =>
      (["=", "$", "∑", "∫", "∂", "∈", "∀", "∃"].any (fun ch => pyIn ch line_stripped)) &&
        decide (line_stripped.length > 3))
  let key_formulas :=
    if formula_sentences.isEmpty then "未明确（需参考全文数学部分）"
    else pyJoin "\n" (formula_sentences.take 3)
  let derivation_sentences :=
    ((pySplitAny sentenceSeps full_text).filter (fun sentence =>
      (["step", "assume", "derive", "obtain", "result in"].any (fun kw =>
        pyIn kw (pyLower sentence))) && decide (sentence.length > 10))).map pyStrip
  let derivation_steps :=
    if derivation_sentences.isEmpty then "未明确（需参考全文推导部分）"
    else pyJoin "\n" ((derivation_sentences.take 3).enum.map (fun is =>
      toString (is.1 + 1) ++ ". " ++ is.2))
  let advantage_sentences :=
    ((pySplitAny sentenceSeps full_text).filter (fun sentence =>
      (["advantage", "faster", "lower", "reduce", "efficient"].any (fun kw =>
        pyIn kw (pyLower sentence))) && decide (sentence.length > 10))).map pyStrip
  let math_advantage := advantage_sentences.headD "未明确（需参考全文优势部分）"
  (key_formulas, derivation_steps, math_advantage)

/-- Default reproduction pipeline of `extract_reproduction` (used when fewer
than three step-like lines are found). -/
def default_core_steps : List String :=
  ["1. 加载数据集并执行预处理（如清洗、归一化）",
   "2. 初始化模型并配置训练参数（如学习率、迭代次数）",
   "3. 执行模型训练并监控训练过程",
   "4. 在测试集上验证模型性能"]

/-- `extract_reproduction` of `usd.py` over `experiments + "\n" + full_text`:
dataset / environment / hardware / code sentences by keyword, and the core
steps with the three-match override rule. -/
def extract_reproduction (structured_content : StructuredContent) :
    String × String × String × String × String :=
  let full_text := structured_content.experiments ++ "\n" ++ structured_content.full_text
  let dataset_sentences :=
    ((pySplitAny sentenceSeps full_text).filter (fun sentence =>
      pyIn "dataset" (pyLower sentence) && decide (sentence.length > 10))).map pyStrip
  let data_prep := dataset_sentences.headD "未公开（需参考全文数据集部分）"
  let env_sentences :=
    ((pySplitAny sentenceSeps full_text).filter (fun sentence =>
      ["python", "pytorch", "tensorflow", "version"].any (fun kw =>
        pyIn kw (pyLower sentence)))).map pyStrip
  let env_config := env_sentences.headD "未公开（需参考全文环境部分）"
  let hardware_sentences :=
    ((pySplitAny sentenceSeps full_text).filter (fun sentence =>
      ["gpu", "tpu", "a100", "v100", "rtx", "memory"].any (fun kw =>
        pyIn kw (pyLower sentence)))).map pyStrip
  let hardware_req := hardware_sentences.headD "未公开（需参考全文硬件部分）"
  let step_sentences :=
    ((pySplitChar '\n' full_text).filter (fun s =>
      ["step", "train", "test", "load data"].any (fun kw => pyIn kw (pyLower s)))).map pyStrip
  let core_steps :=
    if step_sentences.length ≥ 3 then
      (step_sentences.take 4).enum.map (fun is => toString (is.1 + 1) ++ ". " ++ pyTake is.2 80 ++ "...")
    else default_core_steps
  let core_steps_str := pyJoin "\n" core_steps
  let code_sentences :=
    ((pySplitAny sentenceSeps full_text).filter (fun sentence =>
      ["github", "open source", "repository", "code"].any (fun kw =>
        pyIn kw (pyLower sentence)))).map pyStrip
  let code_info := code_sentences.headD "未开源（需参考全文代码部分）"
  (data_prep, env_config, hardware_req, core_steps_str, code_info)

/-- `extract_comparison` of `usd.py` over `experiments + "\n" + conclusion`:
compared methods (keyword plus an uppercase character, first comma segment of
the first three matches), metric / result sentences, and the conclusion with
the 100-character truncation rule. -/
def extract_comparison (structured_content : StructuredContent) :
    String × String × String × String :=
  let conclusion := structured_content.conclusion
  let full_text := structured_content.experiments ++ "\n" ++ conclusion
  let method_sentences :=
    ((pySplitAny sentenceSeps full_text).filter (fun sentence =>
      (["compare", "baseline", "method", "sota"].any (fun kw => pyIn kw (pyLower sentence))) &&
        (sentence.data.any Char.isUpper && decide (sentence.length > 10)))).map pyStrip
  let compared_methods :=
    if method_sentences.isEmpty then "未公开（需参考全文对比部分）"
    else pyJoin ", " ((method_sentences.take 3).map (fun s => pyStrip (pySplitHead ',' s)))
  let metric_sentences :=
    ((pySplitAny sentenceSeps full_text).filter (fun sentence =>
      metric_keywords.any (fun kw => pyIn kw (pyLower sentence)))).map pyStrip
  let evaluation_metrics := metric_sentences.headD "未明确（需参考全文指标部分）"
  let result_sentences :=
    ((pySplitAny sentenceSeps full_text).filter (fun sentence =>
      pyIn "%" sentence ||
        ["higher", "lower", "better", "score"].any (fun kw => pyIn kw (pyLower sentence)))).map pyStrip
  let key_results :=
    if result_sentences.isEmpty then "未明确（需参考全文结果部分）"
    else pyJoin "\n" (result_sentences.take 2)
  let experiment_conclusion0 :=
    if conclusion.length > 100 then pyTake conclusion 100 ++ "..." else conclusion
  let experiment_conclusion :=
    if experiment_conclusion0 = "" then
      let conclusion_sentences :=
        ((pySplitChar '\n' full_text).filter (fun s =>
          conclusion_keywords.any (fun kw => pyIn kw (pyLower s)))).map pyStrip
      match conclusion_sentences with
      | c :: _ => pyTake c 100 ++ "..."
      | [] => "未明确（需参考全文结论部分）"
    else experiment_conclusion0
  (compared_methods, evaluation_metrics, key_results, experiment_conclusion)

/-- The fixed pseudo-code sentinel string of the source. -/
def pseudoSentinel : String := "非YOLO系列论文，无需生成伪代码"

/-- The `innovation_point` block of the output schema. -/
structure InnovationPoint where
  core_innovation : String
  innovation_value : String
  pseudo_code : String
deriving Repr, DecidableEq

/-- The `math_derivation` block of the output schema. -/
structure MathDerivation where
  key_formulas : String
  derivation_steps : String
  math_advantage : String
deriving Repr, DecidableEq

/-- The `reproduction_steps` block of the output schema. -/
structure ReproductionSteps where
  data_prep : String
  env_config : String
  hardware_req : String
  core_steps : String
  code_info : String
deriving Repr, DecidableEq

/-- The `comparison_experiments` block of the output schema. -/
structure ComparisonExperiments where
  compared_methods : String
  evaluation_metrics : String
  key_results : String
  experiment_conclusion : String
deriving Repr, DecidableEq

/-- The `AnalysisResult` output schema of `usd.py` (the nested dict built by
`generate_smart_fallback`). -/
structure AnalysisResult where
  paper_title : String
  is_yolo_related : String
  innovation_point : InnovationPoint
  math_derivation : MathDerivation
  reproduction_steps : ReproductionSteps
  comparison_experiments : ComparisonExperiments
deriving Repr, DecidableEq

/-- `generate_smart_fallback` of `usd.py`: the heuristic candidate, filling
every field from the extractors; `pseudo_code` is assigned the fixed sentinel
in the dict literal and never reassigned. -/
def generate_smart_fallback (structured_content : StructuredContent) (paper_name : String)
    (is_yolo : Bool) : AnalysisResult :=
  let inn := extract_innovation structured_content
  let math := extract_math structured_content
  let repro := extract_reproduction structured_content
  let comp := extract_comparison structured_content
  { paper_title := extract_title structured_content paper_name
    is_yolo_related := if is_yolo then "是" else "否"
    innovation_point :=
      { core_innovation := inn.1
        innovation_value := inn.2
        pseudo_code := pseudoSentinel }
    math_derivation :=
      { key_formulas := math.1
        derivation_steps := math.2.1
        math_advantage := math.2.2 }
    reproduction_steps :=
      { data_prep := repro.1
        env_config := repro.2.1
        hardware_req := repro.2.2.1
        core_steps := repro.2.2.2.1
        code_info := repro.2.2.2.2 }
    comparison_experiments :=
      { compared_methods := comp.1
        evaluation_metrics := comp.2.1
        key_results := comp.2.2.1
        experiment_conclusion := comp.2.2.2 } }

/-- A parsed JSON value as produced by `json.loads` (Python objects are dicts
with distinct keys, in insertion order). -/
inductive PyVal where
  | str (s : String)
  | obj (fields : List (String × PyVal))
  | arr (xs : List PyVal)
  | num (n : Int)
  | bool (b : Bool)
  | null
deriving Repr

/-- Python dict lookup `d[k]` / `d.get(k)` on the field list of a parsed
object (keys are distinct, so first match is the dict entry). -/
def pyLookup (k : String) : List (String × PyVal) → Option PyVal
  | [] => none
  | kv :: rest => if kv.1 = k then some kv.2 else pyLookup k rest

/-- Python dict update `d[k] = v` for a key that is already present: replace
the value in place, keeping the position of the binding. -/
def pyUpdate (k : String) (v : PyVal) : List (String × PyVal) → List (String × PyVal)
  | [] => []
  | kv :: rest => if kv.1 = k then (kv.1, v) :: rest else kv :: pyUpdate k v rest

/-- Python dict assignment `d[k] = v` in general: replace the binding when the
key exists, otherwise append the new binding at the end (insertion order). -/
def pySetItem (k : String) (v : PyVal) : List (String × PyVal) → List (String × PyVal)
  | [] => [(k, v)]
  | kv :: rest => if kv.1 = k then (kv.1, v) :: rest else kv :: pySetItem k v rest

/-- Python truthiness of a parsed JSON value (`if result_json:`). -/
def pyTruthy : PyVal → Bool
  | .str s => !(s == "")
  | .obj fields => !fields.isEmpty
  | .arr xs => !xs.isEmpty
  | .num n => !(n == 0)
  | .bool b => b
  | .null => false

/-- Encoding of the heuristic candidate as the parsed-JSON dict that
`generate_smart_fallback` returns, with the key order of the source's dict
literal. -/
def analysisToPy (a : AnalysisResult) : PyVal :=
  .obj [("paper_title", .str a.paper_title),
        ("is_yolo_related", .str a.is_yolo_related),
        ("innovation_point", .obj
          [("core_innovation", .str a.innovation_point.core_innovation),
           ("innovation_value", .str a.innovation_point.innovation_value),
           ("pseudo_code", .str a.innovation_point.pseudo_code)]),
        ("math_derivation", .obj
          [("key_formulas", .str a.math_derivation.key_formulas),
           ("derivation_steps", .str a.math_derivation.derivation_steps),
           ("math_advantage", .str a.math_derivation.math_advantage)]),
        ("reproduction_steps", .obj
          [("data_prep", .str a.reproduction_steps.data_prep),
           ("env_config", .str a.reproduction_steps.env_config),
           ("hardware_req", .str a.reproduction_steps.hardware_req),
           ("core_steps", .str a.reproduction_steps.core_steps),
           ("code_info", .str a.reproduction_steps.code_info)]),
        ("comparison_experiments", .obj
          [("compared_methods", .str a.comparison_experiments.compared_methods),
           ("evaluation_metrics", .str a.comparison_experiments.evaluation_metrics),
           ("key_results", .str a.comparison_experiments.key_results),
           ("experiment_conclusion", .str a.comparison_experiments.experiment_conclusion)])]

/-- Reading `result_json["innovation_point"]["pseudo_code"]` from a result
value (used to state the sentinel claims). -/
def pseudo_of : PyVal → Option PyVal
  | .obj fields =>
    match pyLookup "innovation_point" fields with
    | some (.obj inner) => pyLookup "pseudo_code" inner
    | _ => none
  | _ => none

/-- The pseudo-code normalization of `batch_analyze_papers` (lines 573-575):
`if not is_yolo and result_json["innovation_point"]["pseudo_code"] != sentinel:
 result_json["innovation_point"]["pseudo_code"] = sentinel`.
`none` models the `KeyError`/`TypeError` raised when the nested access fails,
which the outer `except` turns into the heuristic fallback. -/
def force_pseudo_batch (j : PyVal) : Option PyVal :=
  match j with
  | .obj fields =>
    match pyLookup "innovation_point" fields with
    | some (.obj inner) =>
      match pyLookup "pseudo_code" inner with
      | some v =>
        match v with
        | .str s =>
          if s = pseudoSentinel then some j
          else some (.obj (pyUpdate "innovation_point"
            (.obj (pyUpdate "pseudo_code" (.str pseudoSentinel) inner)) fields))
        | _ => some (.obj (pyUpdate "innovation_point"
            (.obj (pyUpdate "pseudo_code" (.str pseudoSentinel) inner)) fields))
      | none => none
    | some _ => none
    | none => none
  | _ => none

/-- The blank-field check of `batch_analyze_papers` (lines 577-579):
`result_json.get(field, "").strip()` must be truthy for `paper_title` and
`is_yolo_related`; a missing key defaults to `""` (blank), a non-string value
raises `AttributeError` (also ending in the fallback). -/
def field_nonblank (fields : List (String × PyVal)) (k : String) : Bool :=
  match pyLookup k fields with
  | some (.str s) => !(pyStrip s == "")
  | some _ => false
  | none => false

/-- The full validation gate of `batch_analyze_papers` applied to the parsed
model candidate: pseudo-code normalization first, then the blank checks on
`paper_title` and `is_yolo_related`.  `none` covers every raised exception
(`KeyError`, `TypeError`, `AttributeError`, `ValueError`), all of which make
the code fall back to the heuristic candidate. -/
def validate_llm_result (is_yolo : Bool) (j : PyVal) : Option PyVal :=
  let step1 : Option PyVal := if is_yolo then some j else force_pseudo_batch j
  match step1 with
  | none => none
  | some j1 =>
    match j1 with
    | .obj fields =>
      if field_nonblank fields "paper_title" && field_nonblank fields "is_yolo_related" then some j1
      else none
    | _ => none

/-- Outcome of the LLM round trip for one document.  `callFailed` models the
`llm(analyze_prompt)` call raising (so `llm_result` is never assigned for this
document); `returned parsed` models the call returning text, with `parsed`
the result of `json.loads` after the code-fence strip (`none` is a
`JSONDecodeError`).  Decoding itself is the external model collaborator and
the external `json` library. -/
inductive ModelOutcome where
  | callFailed
  | returned (parsed : Option PyVal)
deriving Repr

/-- Whether the local variable `llm_result` is defined after processing this
document: it survives from earlier loop iterations (`prev`) and is assigned
exactly when the LLM call returns. -/
def llm_defined_after (prev : Bool) : ModelOutcome → Bool
  | .callFailed => prev
  | .returned _ => true

/-- The heuristic extraction-source tag of the source
(`"智能提取（无LLM）"`). -/
def heuristicTag : String := "智能提取（无LLM）"

/-- Steps 4 of `batch_analyze_papers` (lines 556-595) for one document: the
try/except ladder around the LLM call, the validation gate, the fallback, and
the provenance tag
`"LLM" if "llm_result" in locals() and result_json else "智能提取（无LLM）"`.
Returns `(result_json, extraction_source, llm_result defined afterwards)`.
`prev` says whether `llm_result` was already in `locals()` from an earlier
document of the same batch call. -/
def process_llm_batch (prev : Bool) (is_yolo : Bool) (mo : ModelOutcome)
    (structured_content : StructuredContent) (paper_name : String) :
    PyVal × String × Bool :=
  let llmDef := llm_defined_after prev mo
  let result : PyVal :=
    match mo with
    | .callFailed => analysisToPy (generate_smart_fallback structured_content paper_name is_yolo)
    | .returned none => analysisToPy (generate_smart_fallback structured_content paper_name is_yolo)
    | .returned (some j) =>
      match validate_llm_result is_yolo j with
      | some j1 => j1
      | none => analysisToPy (generate_smart_fallback structured_content paper_name is_yolo)
  let tag := if llmDef && pyTruthy result then "LLM" else heuristicTag
  (result, tag, llmDef)

/-- The pseudo-code forcing of `analyze_single_paper` (lines 666-667):
`result_json["innovation_point"]["pseudo_code"] = sentinel` with no equality
guard; Python dict assignment creates the key when it is missing.  `none`
models the `KeyError`/`TypeError` of the lookup/assignment, which the
surrounding `except` turns into the heuristic fallback. -/
def force_pseudo_single (j : PyVal) : Option PyVal :=
  match j with
  | .obj fields =>
    match pyLookup "innovation_point" fields with
    | some (.obj inner) => some (.obj (pyUpdate "innovation_point"
        (.obj (pySetItem "pseudo_code" (.str pseudoSentinel) inner)) fields))
    | some _ => none
    | none => none
  | _ => none

/-- The LLM/fallback step of `analyze_single_paper` (lines 641-673): parse the
model output, force the sentinel when the document is not YOLO-related (there
is no blank-field gate in this function), and fall back to the heuristic
candidate with the heuristic tag on any exception. -/
def process_llm_single (is_yolo : Bool) (mo : ModelOutcome)
    (structured_content : StructuredContent) (paper_name : String) : PyVal × String :=
  match mo with
  | .callFailed =>
    (analysisToPy (generate_smart_fallback structured_content paper_name is_yolo), heuristicTag)
  | .returned none =>
    (analysisToPy (generate_smart_fallback structured_content paper_name is_yolo), heuristicTag)
  | .returned (some j) =>
    if is_yolo then (j, "LLM")
    else
      match force_pseudo_single j with
      | some j1 => (j1, "LLM")
      | none =>
        (analysisToPy (generate_smart_fallback structured_content paper_name is_yolo), heuristicTag)

/-- The content-too-short error message of `load_paper_content`. -/
def tooShortMsg : String := "论文内容过短（<200字符），无法提取有效信息"

/-- `load_paper_content` of `usd.py` after the format dispatch: `readResult`
is the outcome of the format-specific reader (file-existence and decode
failures arrive as `.error`); a successfully decoded document whose
`full_text` is shorter than 200 characters is turned into the
content-too-short error. -/
def load_paper_content (readResult : Except String StructuredContent) :
    Except String StructuredContent :=
  match readResult with
  | .error e => .error e
  | .ok content =>
    if content.full_text.length < 200 then .error tooShortMsg else .ok content

/-- One valid paper of the batch loop: its display name, the outcome of the
reader, and the outcome of the LLM call for it. -/
structure PaperInput where
  paper_name : String
  readResult : Except String StructuredContent
  modelOutcome : ModelOutcome

/-- One entry of `analyzed_papers`. -/
structure AnalyzedEntry where
  paper_name : String
  is_yolo_related : Bool
  analysis_result : PyVal
  extraction_source : String

/-- The loop state of `batch_analyze_papers`: the `analyzed` and `errors`
accumulators plus whether `llm_result` is in `locals()`. -/
structure BatchState where
  analyzed : List AnalyzedEntry
  errors : List String
  llmDefined : Bool

/-- One iteration of the document loop of `batch_analyze_papers` (lines
493-595): load, record a document-level error and continue on failure,
otherwise classify, run the LLM/fallback step and append the entry. -/
def batch_step (st : BatchState) (p : PaperInput) : BatchState :=
  match load_paper_content p.readResult with
  | .error e => { st with errors := st.errors ++ [p.paper_name ++ "：" ++ e] }
  | .ok structured_content =>
    let is_yolo := is_yolo_related_paper structured_content p.paper_name
    let r := process_llm_batch st.llmDefined is_yolo p.modelOutcome structured_content p.paper_name
    { analyzed := st.analyzed ++
        [{ paper_name := p.paper_name
           is_yolo_related := is_yolo
           analysis_result := r.1
           extraction_source := r.2.1 }]
      errors := st.errors
      llmDefined := r.2.2 }

/-- The document loop of `batch_analyze_papers` from a given state. -/
def batch_go (st : BatchState) (papers : List PaperInput) : BatchState :=
  papers.foldl batch_step st

/-- `batch_analyze_papers` of `usd.py` restricted to its document loop: start
from empty accumulators with `llm_result` not yet defined. -/
def batch_analyze_papers (papers : List PaperInput) : BatchState :=
  batch_go { analyzed := [], errors := [], llmDefined := false } papers

/-- Keyword set of the experiments accumulator of `read_pdf`. -/
def pdf_exp_keywords : List String := ["experiment", "result", "evaluation"]

/-- One iteration of the experiments accumulation of `read_pdf` (lines
98-101): when the page contains a keyword and the accumulated region is still
below 5000 characters, append the page marker and the first 2000 characters
of the page.  The pair carries the 0-based page index and the page text. -/
def pdf_exp_step (acc : String) (ip : Nat × String) : String :=
  if pdf_exp_keywords.any (fun kw => pyIn kw (pyLower ip.2)) && decide (acc.length < 5000) then
    acc ++ "【第" ++ toString (ip.1 + 1) ++ "页实验内容】\n" ++ pyTake ip.2 2000 ++ "\n"
  else acc

/-- The experiments accumulation of `read_pdf` over the first ten pages. -/
def read_pdf_experiments (pages : List String) : String :=
  ((pages.take 10).enum).foldl pdf_exp_step ""

/-- Keyword set of the experiments accumulator of `read_word` / `read_txt`. -/
def word_exp_keywords : List String := ["experiment", "result"]

/-- The experiments accumulation loop of `read_word` (lines 134-138):
`enumerate(paragraphs)` is modelled by scanning the suffix `scan` of
`paragraphs` that starts at index `i`.  A paragraph matching a keyword at
index `i < len(paragraphs) - 5` appends the six paragraphs
`paragraphs[i:i+6]` joined with newlines, and the loop breaks when the
accumulated length is strictly greater than 3000 — the check runs after the
append. -/
def read_word_experiments_go (paragraphs : List String) : List String → Nat → String → String
  | [], _, acc => acc
  | para :: rest, i, acc =>
    if word_exp_keywords.any (fun kw => pyIn kw (pyLower para))
        && decide (i + 5 < paragraphs.length) then
      let acc2 := acc ++ pyJoin "\n" ((paragraphs.drop i).take 6)
      if acc2.length > 3000 then acc2
      else read_word_experiments_go paragraphs rest (i + 1) acc2
    else read_word_experiments_go paragraphs rest (i + 1) acc

/-- The experiments accumulation of `read_word` (the `read_txt` loop has the
same cap policy with line units). -/
def read_word_experiments (paragraphs : List String) : String :=
  read_word_experiments_go paragraphs paragraphs 0 ""

/-- Contribution of the unit at index `i` to the `read_word` experiments
accumulator: the six paragraphs starting at `i`, newline-joined. -/
def word_contrib (paragraphs : List String) (i : Nat) : Nat :=
  (pyJoin "\n" ((paragraphs.drop i).take 6)).length

/-- Maximum of a list of naturals (0 for the empty list). -/
def natListMax : List Nat → Nat
  | [] => 0
  | x :: xs => max x (natListMax xs)

/-- The largest single contribution any unit of the list can make to the
`read_word` experiments accumulator. -/
def word_max_contrib (paragraphs : List String) : Nat :=
  natListMax ((List.range paragraphs.length).map (word_contrib paragraphs))

/-- Test document for the negative-keyword precedence scenario: the text
contains the negative keyword `transformer` together with the positive
keywords `yolo` and `object detection`. -/
def c3sc : StructuredContent :=
  { home_page := "", abstract := "", experiments := "", conclusion := "",
    full_text := "This paper applies transformer and yolo to object detection" }

/-- Test document whose only classification signal is the mixed-case keyword
`mAP`; it contains no negative keyword and no other positive keyword. -/
def c5sc : StructuredContent :=
  { home_page := "", abstract := "", experiments := "", conclusion := "",
    full_text := "The mAP metric is reported for our detector on the benchmark suite" }

/-- Test document whose only comparison-keyword sentence starts with a comma,
so the text before its first comma is empty. -/
def c4sc : StructuredContent :=
  { home_page := "", abstract := "", experiments := ",baseline METHOD is used here",
    conclusion := "", full_text := "" }

/-- Test document whose single innovation sentence is 156 characters long. -/
def c6sc : StructuredContent :=
  { home_page := "", abstract := "novel " ++ String.mk (List.replicate 150 'x'),
    experiments := "", conclusion := "", full_text := "" }

/-- A parsed model candidate with the valid nested shape but a blank
`paper_title` (the validation-gate failure of spec scenario 5). -/
def c2_blank_model : PyVal :=
  .obj [("paper_title", .str ""), ("is_yolo_related", .str "是"),
        ("innovation_point", .obj [("pseudo_code", .str pseudoSentinel)])]

/-- An empty but well-formed structured content record. -/
def c2sc : StructuredContent :=
  { home_page := "", abstract := "", experiments := "", conclusion := "", full_text := "" }

/-- A structured content record whose full text has fewer than 200
characters. -/
def c7short : StructuredContent :=
  { home_page := "", abstract := "", experiments := "", conclusion := "",
    full_text := "short text" }

/-- A structured content record whose full text has exactly 200 characters. -/
def c7okc : StructuredContent :=
  { home_page := "", abstract := "", experiments := "", conclusion := "",
    full_text := String.mk (List.replicate 200 'a') }

/-- A batch document that decodes to fewer than 200 characters. -/
def c7p : PaperInput :=
  { paper_name := "tiny.pdf", readResult := .ok c7short, modelOutcome := .callFailed }

/-- A batch document that decodes to 200 characters. -/
def c7good : PaperInput :=
  { paper_name := "ok.pdf", readResult := .ok c7okc, modelOutcome := .callFailed }

/-- First paragraph of the at-cap scenario: contains `result` and pads the
first six-paragraph contribution to exactly 3000 characters. -/
def c8p0 : String := "result" ++ String.mk (List.replicate 2975 'a')

/-- Seven paragraphs whose first matching unit contributes exactly 3000
characters (the cap) and whose second matching unit at index 1 contributes 21
more. -/
def c8ps : List String := [c8p0, "result", "zz", "zz", "zz", "zz", "zz"]

/-- A 5000-character accumulated experiments region (the `read_pdf` cap). -/
def c8acc : String := String.mk (List.replicate 5000 'a')

/-- The first contribution of the at-cap scenario: the first six paragraphs
of `c8ps`, newline-joined — exactly 3000 characters. -/
def c8mid : String := pyJoin "\n" (c8ps.take 6)

theorem length_mk (l : List Char) : (String.mk l).length = l.length := rfl

theorem string_ne_empty_of_length_pos {s : String} (h : 0 < s.length) : s ≠ "" := by
  intro hs
  rw [hs] at h
  exact absurd h (by decide)

theorem length_pyTake (s : String) (n : Nat) : (pyTake s n).length = min n s.length := by
  show (s.data.take n).length = min n s.length
  rw [List.length_take]
  rfl

/-- Structural property used for strip idempotence: the list either is empty
or starts with a non-whitespace character. -/
def headOK (l : List Char) : Prop :=
  match l with
  | [] => True
  | a :: _ => pyWS a = false

theorem headOK_dropWhile (l : List Char) : headOK (l.dropWhile pyWS) := by
  induction l with
  | nil => trivial
  | cons a t ih =>
    rw [List.dropWhile_cons]
    by_cases h : pyWS a = true
    · simpa [h] using ih
    · simp only [h]
      simp only [Bool.not_eq_true] at h
      simpa [headOK] using h

theorem dropWhile_of_headOK {l : List Char} (h : headOK l) : l.dropWhile pyWS = l := by
  cases l with
  | nil => rfl
  | cons a t =>
    rw [List.dropWhile_cons]
    simp [headOK] at h
    simp [h]

theorem trimLeft_headOK (l : List Char) : headOK (trimLeft l) := headOK_dropWhile l

theorem trimRight_pre (l : List Char) : trimRight l <+: l := by
  have h1 : l.reverse.dropWhile pyWS <:+ l.reverse := List.dropWhile_suffix pyWS
  have h2 : (l.reverse.dropWhile pyWS).reverse.reverse <:+ l.reverse := by
    simpa using h1
  exact (List.reverse_suffix).mp h2

theorem headOK_of_pre {l₁ l₂ : List Char} (h : l₁ <+: l₂) (h2 : headOK l₂) : headOK l₁ := by
  obtain ⟨r, rfl⟩ := h
  cases l₁ with
  | nil => trivial
  | cons a t => simpa [headOK] using h2

theorem trimRight_headOK {l : List Char} (h : headOK l) : headOK (trimRight l) :=
  headOK_of_pre (trimRight_pre l) h

theorem trimLeft_of_headOK {l : List Char} (h : headOK l) : trimLeft l = l :=
  dropWhile_of_headOK h

theorem trimRight_idem (l : List Char) : trimRight (trimRight l) = trimRight l := by
  unfold trimRight
  rw [List.reverse_reverse]
  rw [dropWhile_of_headOK (headOK_dropWhile l.reverse)]

theorem pyStripList_idem (l : List Char) : pyStripList (pyStripList l) = pyStripList l := by
  unfold pyStripList
  have h1 : headOK (trimRight (trimLeft l)) := trimRight_headOK (trimLeft_headOK l)
  rw [trimLeft_of_headOK h1, trimRight_idem]

theorem pyStrip_idem (s : String) : pyStrip (pyStrip s) = pyStrip s := by
  simp [pyStrip, pyStripList_idem]

theorem pyLookup_pyUpdate_self {k : String} {fields : List (String × PyVal)} (v : PyVal)
    (h : (pyLookup k fields).isSome) :
    pyLookup k (pyUpdate k v fields) = some v := by
  induction fields with
  | nil => simp [pyLookup] at h
  | cons kv rest ih =>
    by_cases hk : kv.1 = k
    · simp [pyUpdate, pyLookup, hk]
    · simp only [pyUpdate, pyLookup, hk, if_false, if_neg hk]
      exact ih (by simpa [pyLookup, hk] using h)

theorem pyLookup_pySetItem_self (k : String) (v : PyVal) (fields : List (String × PyVal)) :
    pyLookup k (pySetItem k v fields) = some v := by
  induction fields with
  | nil => simp [pySetItem, pyLookup]
  | cons kv rest ih =>
    by_cases hk : kv.1 = k
    · simp [pySetItem, pyLookup, hk]
    · simp only [pySetItem, pyLookup, hk, if_false, if_neg hk]
      exact ih

/-- C3: for every document whose lowercased full text contains a
negative-set keyword, `is_yolo_related_paper` returns `false`, whatever
positive keywords the text or the document name may also contain: the
negative check runs first and short-circuits the positive one. -/
theorem c3_negative_keyword_precedence (sc : StructuredContent) (name : String)
    (kw : String) (hmem : kw ∈ non_yolo_keywords)
    (hkw : pyIn kw (pyLower sc.full_text) = true) :
    is_yolo_related_paper sc name = false := by
  have hany : non_yolo_keywords.any (fun k => pyIn k (pyLower sc.full_text)) = true :=
    List.any_eq_true.mpr ⟨kw, hmem, hkw⟩
  simp only [is_yolo_related_paper, hany, if_true]

theorem c3_negative_keyword_precedence_witness :
    "transformer" ∈ non_yolo_keywords ∧
    pyIn "transformer" (pyLower c3sc.full_text) = true ∧
    pyIn "yolo" (pyLower c3sc.full_text) = true ∧
    is_yolo_related_paper c3sc "yolo_paper.pdf" = false :=
  ⟨by decide, by decide, by decide,
   c3_negative_keyword_precedence c3sc "yolo_paper.pdf" "transformer" (by decide) (by decide)⟩

/-- C4 (code bug): the heuristic candidate is supposed to have only non-empty
leaf fields, but on a document whose only comparison sentence begins with a
comma, `extract_comparison` joins the empty text before the first comma and
`compared_methods` comes out as the empty string — the `generate_smart_fallback`
result violates the non-emptiness invariant. -/
theorem c4_compared_methods_empty :
    (generate_smart_fallback c4sc "demo.pdf" false).comparison_experiments.compared_methods = "" ∧
    (extract_comparison c4sc).1 = "" := by
  exact ⟨rfl, rfl⟩

/-- C5 (code bug): positive-keyword matching is not case-insensitive for the
mixed-case entries of the positive set.  The classifier lowercases the
haystack but keeps the needle `mAP` mixed-case, so a document containing
`mAP` (and no other signal) is classified not-relevant, against the
case-insensitivity stated by the spec. -/
theorem c5_mixed_case_keyword_never_matches :
    pyIn "mAP" c5sc.full_text = true ∧
    "mAP" ∈ yolo_keywords ∧
    non_yolo_keywords.all (fun kw => !pyIn kw (pyLower c5sc.full_text)) = true ∧
    is_yolo_related_paper c5sc "paper.pdf" = false := by
  decide

theorem pyOrStr_trunc_le (s d : String) (n : Nat) (hd : d.length ≤ n + 3) :
    (pyOrStr (if s.length > n then pyTake s n ++ "..." else s) d).length ≤ n + 3 := by
  have h3 : ("..." : String).length = 3 := rfl
  by_cases h : s.length > n
  · rw [if_pos h]
    have hlen : (pyTake s n ++ "...").length = n + 3 := by
      rw [String.length_append, length_pyTake, h3, Nat.min_eq_left (Nat.le_of_lt h)]
    have hne : (pyTake s n ++ "...") ≠ "" :=
      string_ne_empty_of_length_pos (by omega)
    rw [pyOrStr, if_neg hne, hlen]
  · rw [if_neg h]
    by_cases hs : s = ""
    · rw [pyOrStr, if_pos hs]
      omega
    · rw [pyOrStr, if_neg hs]
      omega

set_option maxRecDepth 100000 in
/-- C6 counterexample: on a document with a single 156-character innovation
sentence the extractor returns a `core_innovation` of 153 characters (150
truncated characters plus the three-character ellipsis), refuting the stated
150-character cap. -/
theorem c6_length_cap_counterexample :
    (extract_innovation c6sc).1.length = 153 ∧ ¬((extract_innovation c6sc).1.length ≤ 150) := by
  decide

/-- C6 as amended: the innovation extractor truncates to 150/100 characters
and then appends a three-character ellipsis, so `core_innovation` is at most
153 characters and `innovation_value` at most 103; over-long candidates are
truncated, never discarded. -/
theorem c6_truncation_bounds (sc : StructuredContent) :
    (extract_innovation sc).1.length ≤ 153 ∧ (extract_innovation sc).2.length ≤ 103 := by
  exact ⟨pyOrStr_trunc_le (core_innovation_raw sc) _ 150 (by decide),
         pyOrStr_trunc_le (innovation_value_raw sc) _ 100 (by decide)⟩

/-- C10: the heuristic candidate built by `generate_smart_fallback` assigns
`innovation_point.pseudo_code` the fixed sentinel in its dict literal and
never reassigns it, for every input — including documents whose relevance
flag is `true`. -/
theorem c10_fallback_pseudo_unconditional (sc : StructuredContent) (name : String)
    (is_yolo : Bool) :
    (generate_smart_fallback sc name is_yolo).innovation_point.pseudo_code = pseudoSentinel := rfl

theorem pseudo_of_fallback (sc : StructuredContent) (name : String) (is_yolo : Bool) :
    pseudo_of (analysisToPy (generate_smart_fallback sc name is_yolo)) =
      some (.str pseudoSentinel) := rfl

theorem validate_eq_force {j j1 : PyVal} (h : validate_llm_result false j = some j1) :
    force_pseudo_batch j = some j1 := by
  unfold validate_llm_result at h
  simp only [Bool.false_eq_true, if_false] at h
  cases hf : force_pseudo_batch j with
  | none => rw [hf] at h; exact Option.noConfusion h
  | some j0 =>
    rw [hf] at h
    cases j0 with
    | obj fields =>
      simp only [] at h
      split at h
      · exact h
      · exact Option.noConfusion h
    | str s => exact Option.noConfusion h
    | arr xs => exact Option.noConfusion h
    | num n => exact Option.noConfusion h
    | bool b => exact Option.noConfusion h
    | null => exact Option.noConfusion h

theorem pseudo_of_obj {fields inner : List (String × PyVal)}
    (h : pyLookup "innovation_point" fields = some (.obj inner)) :
    pseudo_of (.obj fields) = pyLookup "pseudo_code" inner := by
  simp only [pseudo_of, h]

theorem force_pseudo_batch_sentinel {j j0 : PyVal} (h : force_pseudo_batch j = some j0) :
    pseudo_of j0 = some (.str pseudoSentinel) := by
  unfold force_pseudo_batch at h
  cases j with
  | obj fields =>
    simp only [] at h
    cases hip : pyLookup "innovation_point" fields with
    | none => rw [hip] at h; exact Option.noConfusion h
    | some ip =>
      rw [hip] at h
      cases ip with
      | obj inner =>
        simp only [] at h
        cases hpc : pyLookup "pseudo_code" inner with
        | none => rw [hpc] at h; exact Option.noConfusion h
        | some v =>
          rw [hpc] at h
          simp only [] at h
          have hupd : pseudo_of (.obj (pyUpdate "innovation_point"
              (.obj (pyUpdate "pseudo_code" (.str pseudoSentinel) inner)) fields)) =
              some (.str pseudoSentinel) := by
            rw [pseudo_of_obj (pyLookup_pyUpdate_self _ (by rw [hip]; rfl))]
            rw [pyLookup_pyUpdate_self _ (by rw [hpc]; rfl)]
          cases v with
          | str s =>
            simp only [] at h
            by_cases hs : s = pseudoSentinel
            · rw [if_pos hs] at h
              cases h
              rw [pseudo_of_obj hip, hpc, hs]
            · rw [if_neg hs] at h
              cases h
              exact hupd
          | obj inner2 => simp only [] at h; cases h; exact hupd
          | arr xs => simp only [] at h; cases h; exact hupd
          | num n => simp only [] at h; cases h; exact hupd
          | bool b => simp only [] at h; cases h; exact hupd
          | null => simp only [] at h; cases h; exact hupd
      | str s => exact Option.noConfusion h
      | arr xs => exact Option.noConfusion h
      | num n => exact Option.noConfusion h
      | bool b => exact Option.noConfusion h
      | null => exact Option.noConfusion h
  | str s => exact Option.noConfusion h
  | arr xs => exact Option.noConfusion h
  | num n => exact Option.noConfusion h
  | bool b => exact Option.noConfusion h
  | null => exact Option.noConfusion h

theorem force_pseudo_single_sentinel {j j1 : PyVal} (h : force_pseudo_single j = some j1) :
    pseudo_of j1 = some (.str pseudoSentinel) := by
  unfold force_pseudo_single at h
  cases j with
  | obj fields =>
    simp only [] at h
    cases hip : pyLookup "innovation_point" fields with
    | none => rw [hip] at h; exact Option.noConfusion h
    | some ip =>
      rw [hip] at h
      cases ip with
      | obj inner =>
        simp only [] at h
        cases h
        rw [pseudo_of_obj (pyLookup_pyUpdate_self _ (by rw [hip]; rfl))]
        rw [pyLookup_pySetItem_self]
      | str s => exact Option.noConfusion h
      | arr xs => exact Option.noConfusion h
      | num n => exact Option.noConfusion h
      | bool b => exact Option.noConfusion h
      | null => exact Option.noConfusion h
  | str s => exact Option.noConfusion h
  | arr xs => exact Option.noConfusion h
  | num n => exact Option.noConfusion h
  | bool b => exact Option.noConfusion h
  | null => exact Option.noConfusion h

/-- C1: for every document whose relevance flag is false, the pseudo-code
field of the final result is the fixed sentinel, in both the batch selector
and the single-paper selector, whatever the model call produced — the model
path forces the sentinel after validation and every fallback path carries the
sentinel from the heuristic candidate. -/
theorem c1_pseudo_sentinel_when_not_relevant (prev : Bool) (mo : ModelOutcome)
    (sc : StructuredContent) (name : String) :
    pseudo_of (process_llm_batch prev false mo sc name).1 = some (.str pseudoSentinel) ∧
    pseudo_of (process_llm_single false mo sc name).1 = some (.str pseudoSentinel) := by
  constructor
  · cases mo with
    | callFailed => exact pseudo_of_fallback sc name false
    | returned parsed =>
      cases parsed with
      | none => exact pseudo_of_fallback sc name false
      | some j =>
        show pseudo_of (match validate_llm_result false j with
          | some j1 => j1
          | none => analysisToPy (generate_smart_fallback sc name false)) =
          some (.str pseudoSentinel)
        cases hv : validate_llm_result false j with
        | none => exact pseudo_of_fallback sc name false
        | some j1 => exact force_pseudo_batch_sentinel (validate_eq_force hv)
  · cases mo with
    | callFailed => exact pseudo_of_fallback sc name false
    | returned parsed =>
      cases parsed with
      | none => exact pseudo_of_fallback sc name false
      | some j =>
        show pseudo_of (match force_pseudo_single j with
          | some j1 => (j1, "LLM")
          | none => (analysisToPy (generate_smart_fallback sc name false), heuristicTag)).1 =
          some (.str pseudoSentinel)
        cases hf : force_pseudo_single j with
        | none => exact pseudo_of_fallback sc name false
        | some j1 => exact force_pseudo_single_sentinel hf

/-- C2 (code bug): when the model candidate fails the validation gate the
heuristic result is indeed used in batch mode, but the recorded
`extraction_source` is `"LLM"`, not the heuristic tag: the test
`"llm_result" in locals() and result_json` is true because `llm_result` was
assigned by the returning call and the fallback dict is truthy.  In
`analyze_single_paper` there is no blank-field gate at all: a parsed model
candidate with a blank `paper_title` is kept (only its pseudo-code is
forced), also tagged `"LLM"`. -/
theorem c2_gate_failure_mistagged :
    (process_llm_batch false false (.returned (some c2_blank_model)) c2sc "demo.pdf") =
      (analysisToPy (generate_smart_fallback c2sc "demo.pdf" false), "LLM", true) ∧
    (process_llm_single false (.returned (some c2_blank_model)) c2sc "demo.pdf") =
      (.obj [("paper_title", .str ""), ("is_yolo_related", .str "是"),
             ("innovation_point", .obj [("pseudo_code", .str pseudoSentinel)])], "LLM") :=
  ⟨rfl, rfl⟩

/-- C7: a document that decodes to fewer than 200 characters is turned into
the content-too-short error by the loader; in the batch loop it contributes
nothing to `analyzed`, appends its error message to the error log, and the
loop continues with the remaining documents from that state. -/
theorem c7_content_too_short (pre post : List PaperInput) (p : PaperInput)
    (c : StructuredContent) (h1 : p.readResult = .ok c) (h2 : c.full_text.length < 200) :
    load_paper_content p.readResult = .error tooShortMsg ∧
    batch_analyze_papers (pre ++ p :: post) =
      batch_go
        { analyzed := (batch_go { analyzed := [], errors := [], llmDefined := false } pre).analyzed
          errors := (batch_go { analyzed := [], errors := [], llmDefined := false } pre).errors
            ++ [p.paper_name ++ "：" ++ tooShortMsg]
          llmDefined := (batch_go { analyzed := [], errors := [], llmDefined := false } pre).llmDefined }
        post := by
  have hl : load_paper_content p.readResult = .error tooShortMsg := by
    rw [h1]
    unfold load_paper_content
    simp only []
    rw [if_pos h2]
  refine ⟨hl, ?_⟩
  unfold batch_analyze_papers
  unfold batch_go
  rw [List.foldl_append, List.foldl_cons]
  have hstep : ∀ st : BatchState, batch_step st p =
      { analyzed := st.analyzed
        errors := st.errors ++ [p.paper_name ++ "：" ++ tooShortMsg]
        llmDefined := st.llmDefined } := by
    intro st
    unfold batch_step
    rw [hl]
  rw [hstep]

theorem c7_content_too_short_witness :
    c7p.readResult = .ok c7short ∧ c7short.full_text.length < 200 ∧
    (load_paper_content c7p.readResult = .error tooShortMsg ∧
     batch_analyze_papers ([] ++ c7p :: [c7good]) =
       batch_go
         { analyzed :=
             (batch_go { analyzed := [], errors := [], llmDefined := false } []).analyzed
           errors := (batch_go { analyzed := [], errors := [], llmDefined := false } []).errors
             ++ [c7p.paper_name ++ "：" ++ tooShortMsg]
           llmDefined :=
             (batch_go { analyzed := [], errors := [], llmDefined := false } []).llmDefined }
         [c7good]) :=
  ⟨rfl, by decide, c7_content_too_short [] [c7good] c7p c7short rfl (by decide)⟩

theorem le_natListMax : ∀ {l : List Nat} {x : Nat}, x ∈ l → x ≤ natListMax l
  | y :: ys, x, h => by
    unfold natListMax
    rcases List.mem_cons.mp h with rfl | h2
    · exact Nat.le_max_left _ _
    · exact Nat.le_trans (le_natListMax h2) (Nat.le_max_right _ _)

theorem word_contrib_le {paragraphs : List String} {i : Nat} (h : i < paragraphs.length) :
    word_contrib paragraphs i ≤ word_max_contrib paragraphs :=
  le_natListMax (List.mem_map_of_mem _ (List.mem_range.mpr h))

theorem pdf_exp_step_at_cap (acc : String) (ip : Nat × String) (h : 5000 ≤ acc.length) :
    pdf_exp_step acc ip = acc := by
  have h5 : ¬ (acc.length < 5000) := by omega
  simp [pdf_exp_step, h5]

theorem read_word_go_length_le (paragraphs : List String) :
    ∀ (scan : List String) (i : Nat) (acc : String), acc.length ≤ 3000 →
      (read_word_experiments_go paragraphs scan i acc).length ≤
        3000 + word_max_contrib paragraphs := by
  intro scan
  induction scan with
  | nil =>
    intro i acc hacc
    unfold read_word_experiments_go
    omega
  | cons para rest ih =>
    intro i acc hacc
    unfold read_word_experiments_go
    by_cases hc : (word_exp_keywords.any (fun kw => pyIn kw (pyLower para))
        && decide (i + 5 < paragraphs.length)) = true
    · rw [if_pos hc]
      show (if (acc ++ pyJoin "\n" ((paragraphs.drop i).take 6)).length > 3000 then
          acc ++ pyJoin "\n" ((paragraphs.drop i).take 6)
        else read_word_experiments_go paragraphs rest (i + 1)
          (acc ++ pyJoin "\n" ((paragraphs.drop i).take 6))).length ≤
        3000 + word_max_contrib paragraphs
      have hi : i < paragraphs.length := by
        have h1 := ((Bool.and_eq_true _ _).mp hc).2
        have h2 := of_decide_eq_true h1
        omega
      have hcontrib : (acc ++ pyJoin "\n" ((paragraphs.drop i).take 6)).length
          = acc.length + word_contrib paragraphs i := by
        rw [String.length_append]
        rfl
      have hmax := @word_contrib_le paragraphs i hi
      by_cases hb : (acc ++ pyJoin "\n" ((paragraphs.drop i).take 6)).length > 3000
      · rw [if_pos hb]
        omega
      · rw [if_neg hb]
        exact ih (i + 1) _ (by omega)
    · rw [if_neg hc]
      exact ih (i + 1) acc hacc

theorem c8p0_length : c8p0.length = 2981 := by
  have h1 : (String.mk (List.replicate 2975 'a')).length = 2975 := by
    rw [length_mk, List.length_replicate]
  show ("result" ++ String.mk (List.replicate 2975 'a')).length = 2981
  rw [String.length_append, h1]
  decide

theorem c8mid_length : c8mid.length = 3000 := by
  have hmid : c8mid = c8p0 ++ "\n" ++ ("result" ++ "\n" ++ ("zz" ++ "\n" ++ ("zz" ++ "\n" ++
      ("zz" ++ "\n" ++ "zz")))) := rfl
  have hnl : ("\n" : String).length = 1 := rfl
  have hres : ("result" : String).length = 6 := rfl
  have hzz : ("zz" : String).length = 2 := rfl
  rw [hmid]
  simp only [String.length_append, c8p0_length, hnl, hres, hzz]

theorem c8second_length : (pyJoin "\n" ((c8ps.drop 1).take 6)).length = 21 := by decide

/-- C8 counterexample: in the `read_word` accumulator the cap is checked
strictly (`> 3000`) after each append, so when the accumulated region reaches
exactly 3000 characters — the cap — the loop does not stop: on this input the
first matching unit contributes exactly 3000 characters (`c8mid`), the
matching unit after it is still appended, and the final region is
`c8mid` followed by that unit's 21-character contribution, 3021 characters in
total.  This refutes the claim that no further matching units are appended
once the region first reaches or exceeds the cap. -/
theorem c8_cap_reached_counterexample :
    c8mid.length = 3000 ∧
    read_word_experiments c8ps = c8mid ++ pyJoin "\n" ((c8ps.drop 1).take 6) ∧
    (read_word_experiments c8ps).length = 3021 := by
  have hin0 : pyIn "result" (pyLower c8p0) = true := by decide
  have hc0 : (word_exp_keywords.any (fun kw => pyIn kw (pyLower c8p0))
      && decide (0 + 5 < c8ps.length)) = true := by
    rw [Bool.and_eq_true]
    exact ⟨List.any_eq_true.mpr ⟨"result", by decide, hin0⟩, by decide⟩
  have hacc2len : (("" : String) ++ c8mid).length = 3000 := by
    rw [String.length_append, c8mid_length]
    decide
  have hgo0 : read_word_experiments c8ps =
      read_word_experiments_go c8ps ["result", "zz", "zz", "zz", "zz", "zz"] 1
        (("" : String) ++ c8mid) := by
    show read_word_experiments_go c8ps
        (c8p0 :: ["result", "zz", "zz", "zz", "zz", "zz"]) 0 "" = _
    unfold read_word_experiments_go
    rw [if_pos hc0]
    show (if (("" : String) ++ c8mid).length > 3000 then ("" : String) ++ c8mid
      else read_word_experiments_go c8ps ["result", "zz", "zz", "zz", "zz", "zz"] 1
        (("" : String) ++ c8mid)) = _
    rw [if_neg (by rw [hacc2len]; omega)]
    rfl
  have hc1 : (word_exp_keywords.any (fun kw => pyIn kw (pyLower "result"))
      && decide (1 + 5 < c8ps.length)) = true := by decide
  have hgo1 : read_word_experiments_go c8ps ["result", "zz", "zz", "zz", "zz", "zz"] 1
      (("" : String) ++ c8mid) =
      (("" : String) ++ c8mid) ++ pyJoin "\n" ((c8ps.drop 1).take 6) := by
    unfold read_word_experiments_go
    rw [if_pos hc1]
    show (if ((("" : String) ++ c8mid) ++ pyJoin "\n" ((c8ps.drop 1).take 6)).length > 3000 then
        (("" : String) ++ c8mid) ++ pyJoin "\n" ((c8ps.drop 1).take 6)
      else read_word_experiments_go c8ps ["zz", "zz", "zz", "zz", "zz"] 2
        ((("" : String) ++ c8mid) ++ pyJoin "\n" ((c8ps.drop 1).take 6))) = _
    rw [if_pos (by rw [String.length_append, hacc2len, c8second_length]; omega)]
  have hfinal : read_word_experiments c8ps =
      (("" : String) ++ c8mid) ++ pyJoin "\n" ((c8ps.drop 1).take 6) := hgo0.trans hgo1
  refine ⟨c8mid_length, ?_, ?_⟩
  · exact hfinal
  · rw [hfinal, String.length_append, hacc2len, c8second_length]

/-- C8 as amended: for page granularity (`read_pdf`) the 5000-character cap
is checked before each append, so a region at or beyond the cap is never
extended; for paragraph granularity (`read_word`) the 3000-character cap is
checked strictly after each append, so accumulation stops only once the
region strictly exceeds 3000 (at exactly 3000 one more matching unit may
still be appended), and in both readings the final region exceeds the cap by
at most one unit contribution. -/
theorem c8_cap_policy_amended :
    (∀ (acc : String) (ip : Nat × String), 5000 ≤ acc.length → pdf_exp_step acc ip = acc) ∧
    (∀ paragraphs : List String,
      (read_word_experiments paragraphs).length ≤ 3000 + word_max_contrib paragraphs) := by
  constructor
  · exact fun acc ip h => pdf_exp_step_at_cap acc ip h
  · intro ps
    exact read_word_go_length_le ps ps 0 "" (by decide)

theorem c8acc_length : c8acc.length = 5000 := by
  show (String.mk (List.replicate 5000 'a')).length = 5000
  rw [length_mk, List.length_replicate]

theorem c8_cap_policy_amended_witness :
    5000 ≤ c8acc.length ∧ pdf_exp_step c8acc (0, "experiment") = c8acc ∧
    (read_word_experiments c8ps).length ≤ 3000 + word_max_contrib c8ps :=
  ⟨by rw [c8acc_length],
   c8_cap_policy_amended.1 c8acc (0, "experiment") (by rw [c8acc_length]),
   c8_cap_policy_amended.2 c8ps⟩

theorem home_lines_of_empty {sc : StructuredContent} (h : sc.home_page = "") :
    home_lines sc = [] := by
  unfold home_lines
  rw [h]
  decide

theorem abstract_lines_of_empty {sc : StructuredContent} (h : sc.abstract = "") :
    abstract_lines sc = [] := by
  unfold abstract_lines
  rw [h]
  decide

theorem pyStrip_of_mem_stripped {xs : List String} {p : String → Bool} {l : String}
    (h : l ∈ (xs.map pyStrip).filter p) : pyStrip l = l := by
  have h2 := List.mem_of_mem_filter h
  obtain ⟨r, _, rfl⟩ := List.mem_map.mp h2
  exact pyStrip_idem r

theorem mem_home_lines_strip {sc : StructuredContent} {l : String}
    (h : l ∈ home_lines sc) : pyStrip l = l := by
  unfold home_lines at h
  exact pyStrip_of_mem_stripped h

theorem mem_abstract_lines_strip {sc : StructuredContent} {l : String}
    (h : l ∈ abstract_lines sc) : pyStrip l = l := by
  unfold abstract_lines at h
  exact pyStrip_of_mem_stripped h

theorem title_line_ok_ne_empty {l : String} (h : title_line_ok l = true) : l ≠ "" := by
  have h5 : l.length > 5 :=
    of_decide_eq_true ((Bool.and_eq_true _ _).mp ((Bool.and_eq_true _ _).mp h).1).1
  exact string_ne_empty_of_length_pos (by omega)

theorem abstract_line_ok_ne_empty {l : String} (h : abstract_line_ok l = true) : l ≠ "" := by
  have h5 : l.length > 5 := of_decide_eq_true ((Bool.and_eq_true _ _).mp h).1
  exact string_ne_empty_of_length_pos (by omega)

theorem fallback_title_ne_empty (name : String) :
    ("从文件名提取：" ++ filename_title name) ≠ "" := by
  apply string_ne_empty_of_length_pos
  have h7 : ("从文件名提取：" : String).length = 7 := rfl
  rw [String.length_append, h7]
  omega

theorem extract_title_eq (sc : StructuredContent) (name : String) :
    extract_title sc name =
      (match (home_lines sc).find? title_line_ok with
      | some l => l
      | none =>
        match (abstract_lines sc).find? abstract_line_ok with
        | some l => l
        | none => "从文件名提取：" ++ filename_title name) := by
  unfold extract_title
  by_cases hh : sc.home_page = ""
  · rw [if_neg (fun hne => hne hh), home_lines_of_empty hh]
    by_cases ha : sc.abstract = ""
    · rw [if_neg (fun hne => hne ha), abstract_lines_of_empty ha]
      rfl
    · rw [if_pos ha]
      cases hf : (abstract_lines sc).find? abstract_line_ok with
      | none => rfl
      | some l =>
        show pyStrip l = l
        exact mem_abstract_lines_strip (List.mem_of_find?_eq_some hf)
  · rw [if_pos hh]
    cases hf : (home_lines sc).find? title_line_ok with
    | some l =>
      show pyStrip l = l
      exact mem_home_lines_strip (List.mem_of_find?_eq_some hf)
    | none =>
      show (match (if sc.abstract ≠ "" then
          (abstract_lines sc).find? abstract_line_ok else none) with
        | some l => pyStrip l
        | none => "从文件名提取：" ++ filename_title name) = _
      by_cases ha : sc.abstract = ""
      · rw [if_neg (fun hne => hne ha), abstract_lines_of_empty ha]
        rfl
      · rw [if_pos ha]
        cases hf2 : (abstract_lines sc).find? abstract_line_ok with
        | none => rfl
        | some l =>
          show pyStrip l = l
          exact mem_abstract_lines_strip (List.mem_of_find?_eq_some hf2)

/-- C9: `extract_title` always returns a non-empty string and follows the
stated precedence: the first qualifying line of the first three lines of the
home page; else the first qualifying line of the first two lines of the
abstract; else the filename-derived title carrying the
`从文件名提取：` marker that distinguishes it from an extracted line. -/
theorem c9_title_precedence (sc : StructuredContent) (name : String) :
    extract_title sc name ≠ "" ∧
    ((∃ l, (home_lines sc).find? title_line_ok = some l ∧ extract_title sc name = l) ∨
     ((home_lines sc).find? title_line_ok = none ∧
       ∃ l, (abstract_lines sc).find? abstract_line_ok = some l ∧ extract_title sc name = l) ∨
     ((home_lines sc).find? title_line_ok = none ∧
       (abstract_lines sc).find? abstract_line_ok = none ∧
       extract_title sc name = "从文件名提取：" ++ filename_title name)) := by
  rw [extract_title_eq]
  cases hf : (home_lines sc).find? title_line_ok with
  | some l =>
    refine ⟨title_line_ok_ne_empty (List.find?_some hf), Or.inl ⟨l, rfl, rfl⟩⟩
  | none =>
    cases hf2 : (abstract_lines sc).find? abstract_line_ok with
    | some l =>
      exact ⟨abstract_line_ok_ne_empty (List.find?_some hf2), Or.inr (Or.inl ⟨rfl, l, rfl, rfl⟩)⟩
    | none =>
      exact ⟨fallback_title_ne_empty name, Or.inr (Or.inr ⟨rfl, rfl, rfl⟩)⟩
